import Mathlib

/-!
Verification of the OpenDaylight controller-interaction module
(`topologies/sdn-controller-interaction.py`): a shallow embedding of the
`ODLController` REST client, its topology-discovery wait loop, and the
example flow construction helper, together with theorems about the
behaviour the design document ascribes to them.

Conventions of the embedding:
  - JSON values are the inductive `Json`; Python truthiness is `Json.falsy`.
  - The outcome of one HTTP round-trip is an `HttpOutcome`; the `requests`
    library's visible behaviour on that outcome is `requestsGetJson` (GET
    followed by `raise_for_status` and `.json()`) and `requestsMutStatus`
    (PUT/DELETE followed by `raise_for_status`).  Every error these can
    raise is a `requests.exceptions.RequestException` subclass (including
    `JSONDecodeError`, a subclass since requests 2.27).
  - Python-level operations that can raise (`in`, indexing, `len`,
    iteration) return `Except PyErr _`.
  - Methods thread the `ODLController` object explicitly and return it,
    mirroring the fact that Python method bodies may mutate `self`; the
    returned `HttpRequest` records the request each method issued.
  - The wall clock is discrete: each loop iteration of the waiter sleeps
    `poll_interval` seconds and the HTTP calls themselves are instantaneous,
    so elapsed time after `k` full iterations is `k * poll_interval`.
    The `while time.time() - start_time < timeout` loop is expressed by
    structural recursion on a fuel argument; the wrapper passes
    `timeout + 1` units of fuel, which is enough to reach the guard-false
    exit whenever `0 < poll_interval`, and the fuel-exhaustion leaf returns
    the same timed-out result as the guard-false exit.
-/

namespace SDN

/-- JSON values as delivered by `response.json()`. -/
inductive Json where
  | null
  | bool (b : Bool)
  | num (n : Int)
  | str (s : String)
  | arr (xs : List Json)
  | obj (kvs : List (String × Json))

/-- First value bound to key `k` in an association list (Python dict lookup;
dict keys are unique, so first = only). -/
def lookupKey : List (String × Json) → String → Option Json
  | [], _ => none
  | (k', v) :: rest, k => if k' == k then some v else lookupKey rest k

/-- `j[k]` for an object, `none` otherwise (helper for spec-side predicates). -/
def Json.lookup : Json → String → Option Json
  | .obj kvs, k => lookupKey kvs k
  | _, _ => none

/-- Python truthiness negated: `not x` is true exactly on these values. -/
def Json.falsy : Json → Bool
  | .null => true
  | .bool b => !b
  | .num n => n == 0
  | .str s => s.isEmpty
  | .arr xs => xs.isEmpty
  | .obj kvs => kvs.isEmpty

/-- Whether a JSON value is an array. -/
def Json.isArr : Json → Bool
  | .arr _ => true
  | _ => false

/-- Errors raised by the `requests` calls in the client methods' `try`
blocks.  All of them are subclasses of
`requests.exceptions.RequestException` (for `jsonDecodeError` this holds
since requests 2.27). -/
inductive ReqError where
  | connectionError
  | httpError (code : Nat)
  | jsonDecodeError
deriving DecidableEq

/-- Python exceptions that can escape the embedded fragments. -/
inductive PyErr where
  | typeError
  | keyError
  | requestException (e : ReqError)
deriving DecidableEq

/-- Observable outcome of one HTTP round-trip against the controller. -/
inductive HttpOutcome where
  | okJson (body : Json)
  | okBadBody
  | httpFailure (code : Nat)
  | transportError

/-- `requests.get(...)` followed by `response.raise_for_status()` and
`response.json()`: the value produced, or the `RequestException` raised. -/
def requestsGetJson : HttpOutcome → Except ReqError Json
  | .okJson j => .ok j
  | .okBadBody => .error .jsonDecodeError
  | .httpFailure code => .error (.httpError code)
  | .transportError => .error .connectionError

/-- `requests.put(...)` or `requests.delete(...)` followed by
`response.raise_for_status()`: unit on 2xx, or the `RequestException`
raised.  The response body is not inspected by the write paths. -/
def requestsMutStatus : HttpOutcome → Except ReqError Unit
  | .okJson _ => .ok ()
  | .okBadBody => .ok ()
  | .httpFailure code => .error (.httpError code)
  | .transportError => .error .connectionError

/-- The `ODLController` object's connection-relevant state (the logger is
omitted: it carries no data the claims mention). -/
structure ODLController where
  base_url : String
  auth : String × String
  headers : List (String × String)

/-- `ODLController.__init__`. -/
def ODLController.init (ip : String) (port : Nat) (username password : String) :
    ODLController :=
  { base_url := "http://" ++ ip ++ ":" ++ toString port ++ "/restconf"
    auth := (username, password)
    headers := [("Content-Type", "application/json"), ("Accept", "application/json")] }

/-- The request a client method hands to `requests`. -/
structure HttpRequest where
  method : String
  url : String
  auth : String × String
  headers : List (String × String)
  body : Option Json

/-- `ODLController.get_topology`: GET the operational topology; on any
`RequestException` log and return `None`. -/
def get_topology (self : ODLController) (o : HttpOutcome) :
    HttpRequest × Except PyErr (Option Json) × ODLController :=
  let url := self.base_url ++ "/operational/network-topology:network-topology"
  let req : HttpRequest :=
    { method := "GET", url := url, auth := self.auth, headers := self.headers, body := none }
  match requestsGetJson o with
  | .ok j => (req, .ok (some j), self)
  | .error _ => (req, .ok none, self)

/-- `ODLController.get_nodes`. -/
def get_nodes (self : ODLController) (o : HttpOutcome) :
    HttpRequest × Except PyErr (Option Json) × ODLController :=
  let url := self.base_url ++ "/operational/opendaylight-inventory:nodes"
  let req : HttpRequest :=
    { method := "GET", url := url, auth := self.auth, headers := self.headers, body := none }
  match requestsGetJson o with
  | .ok j => (req, .ok (some j), self)
  | .error _ => (req, .ok none, self)

/-- `ODLController.get_node_connectors`. -/
def get_node_connectors (self : ODLController) (node_id : String) (o : HttpOutcome) :
    HttpRequest × Except PyErr (Option Json) × ODLController :=
  let url := self.base_url ++ "/operational/opendaylight-inventory:nodes/node/" ++ node_id
  let req : HttpRequest :=
    { method := "GET", url := url, auth := self.auth, headers := self.headers, body := none }
  match requestsGetJson o with
  | .ok j => (req, .ok (some j), self)
  | .error _ => (req, .ok none, self)

/-- `ODLController.get_flows`. -/
def get_flows (self : ODLController) (node_id : String) (o : HttpOutcome) :
    HttpRequest × Except PyErr (Option Json) × ODLController :=
  let url := self.base_url ++ "/operational/opendaylight-inventory:nodes/node/"
      ++ node_id ++ "/flow-node-inventory:table/0"
  let req : HttpRequest :=
    { method := "GET", url := url, auth := self.auth, headers := self.headers, body := none }
  match requestsGetJson o with
  | .ok j => (req, .ok (some j), self)
  | .error _ => (req, .ok none, self)

/-- The config-tree resource path `install_flow`/`delete_flow` target,
relative to `base_url`: a function of exactly `node_id` and `flow_id`. -/
def flowResourcePath (node_id flow_id : String) : String :=
  "/config/opendaylight-inventory:nodes/node/" ++ node_id
    ++ "/flow-node-inventory:table/0/flow/" ++ flow_id

/-- `ODLController.install_flow`: PUT the serialized body at the flow's
config resource; `True` on 2xx, `False` on any `RequestException`. -/
def install_flow (self : ODLController) (node_id flow_id : String) (flow_body : Json)
    (o : HttpOutcome) : HttpRequest × Except PyErr Bool × ODLController :=
  let url := self.base_url ++ flowResourcePath node_id flow_id
  let req : HttpRequest :=
    { method := "PUT", url := url, auth := self.auth, headers := self.headers
      body := some flow_body }
  match requestsMutStatus o with
  | .ok _ => (req, .ok true, self)
  | .error _ => (req, .ok false, self)

/-- `ODLController.delete_flow`. -/
def delete_flow (self : ODLController) (node_id flow_id : String) (o : HttpOutcome) :
    HttpRequest × Except PyErr Bool × ODLController :=
  let url := self.base_url ++ flowResourcePath node_id flow_id
  let req : HttpRequest :=
    { method := "DELETE", url := url, auth := self.auth, headers := self.headers, body := none }
  match requestsMutStatus o with
  | .ok _ => (req, .ok true, self)
  | .error _ => (req, .ok false, self)

/-- `ODLController.create_shortest_path_flows`: logs two messages and
returns `True`; issues no HTTP request and writes no state. -/
def create_shortest_path_flows (self : ODLController)
    (_source_host _dest_host _path_preference : String) :
    Bool × List HttpRequest × ODLController :=
  (true, [], self)

/-- `ODLController.create_load_balanced_flows`: logs two messages and
returns `True`; issues no HTTP request and writes no state. -/
def create_load_balanced_flows (self : ODLController)
    (_source_ip _dest_ip : String) (_path_count : Nat) :
    Bool × List HttpRequest × ODLController :=
  (true, [], self)

/-- `pat` is a leading segment of `text` (character lists). -/
def charsHasPre : List Char → List Char → Bool
  | [], _ => true
  | _ :: _, [] => false
  | p :: ps, t :: ts => p == t && charsHasPre ps ts

/-- `pat` occurs contiguously inside `text` (Python `str in str`). -/
def charsHasSub (pat : List Char) : List Char → Bool
  | [] => pat.isEmpty
  | t :: ts => charsHasPre pat (t :: ts) || charsHasSub pat ts

/-- Python `k in j` for a string `k`: dict key membership, list element
membership (string equality only: a str never equals a non-str), substring
test on strings; `TypeError` on non-containers. -/
def pyIn (k : String) : Json → Except PyErr Bool
  | .obj kvs => .ok (lookupKey kvs k).isSome
  | .arr xs => .ok (xs.any fun x => match x with | .str s => s == k | _ => false)
  | .str s => .ok (charsHasSub k.data s.data)
  | _ => .error .typeError

/-- Python `j[k]` for a string `k`: dict indexing; `TypeError` for lists,
strings and non-containers (string indices are invalid there). -/
def pyGetItem (j : Json) (k : String) : Except PyErr Json :=
  match j with
  | .obj kvs =>
    match lookupKey kvs k with
    | some v => .ok v
    | none => .error .keyError
  | _ => .error .typeError

/-- Python `len(j)`: defined on strings, lists and dicts. -/
def pyLen : Json → Except PyErr Nat
  | .str s => .ok s.length
  | .arr xs => .ok xs.length
  | .obj kvs => .ok kvs.length
  | _ => .error .typeError

/-- Python `for x in j`: the sequence of values iterated (list elements,
dict keys, characters of a string); `TypeError` otherwise. -/
def pyIter : Json → Except PyErr (List Json)
  | .arr xs => .ok xs
  | .obj kvs => .ok (kvs.map fun kv => Json.str kv.1)
  | .str s => .ok (s.data.map fun ch => Json.str (String.mk [ch]))
  | _ => .error .typeError

/-- The body of the waiter's `for topo in ...` loop: return `True` on the
first entry with both keys present and both collections non-empty,
otherwise fall through to the next entry (short-circuit `and` throughout,
exceptions propagate). -/
def scanEntries : List Json → Except PyErr Bool
  | [] => pure false
  | t :: ts => do
    let hn ← pyIn "node" t
    if hn then
      let hl ← pyIn "link" t
      if hl then
        let nv ← pyGetItem t "node"
        let ln ← pyLen nv
        if 0 < ln then
          let lv ← pyGetItem t "link"
          let ll ← pyLen lv
          if 0 < ll then pure true else scanEntries ts
        else scanEntries ts
      else scanEntries ts
    else scanEntries ts

/-- The readiness inspection of one retrieved topology (the
`if 'network-topology' in topology and ...: for topo in ...` block):
`ok true` when some entry declares discovery complete, `ok false` when the
loop falls through, `error` when the Python code would raise. -/
def checkTopologyReady (topology : Json) : Except PyErr Bool := do
  let h1 ← pyIn "network-topology" topology
  if h1 then
    let nt ← pyGetItem topology "network-topology"
    let h2 ← pyIn "topology" nt
    if h2 then
      let nt2 ← pyGetItem topology "network-topology"
      let entries ← pyGetItem nt2 "topology"
      let es ← pyIter entries
      scanEntries es
    else pure false
  else pure false

/-- What `wait_for_topology_discovery` produces: its outcome (`.error` when
the Python body would raise), the number of `get_topology` calls it made,
and the elapsed time in seconds at the moment it returns. -/
structure WaitResult where
  outcome : Except PyErr Bool
  pollCount : Nat
  elapsed : Nat

/-- One unfolding of the waiter's `while time.time() - start_time < timeout`
loop per unit of fuel; `k` counts completed iterations, so elapsed time at
the top of the loop is `k * poll_interval`.  The fuel-exhaustion leaf
coincides with the guard-false exit. -/
def waitAux (os : Nat → HttpOutcome) (timeout poll_interval : Nat) :
    Nat → ODLController → Nat → WaitResult × ODLController
  | 0, c, k => ({ outcome := .ok false, pollCount := k, elapsed := k * poll_interval }, c)
  | fuel + 1, c, k =>
    if k * poll_interval < timeout then
      let g := get_topology c (os k)
      let c1 := g.2.2
      match g.2.1 with
      | .error e =>
        ({ outcome := .error e, pollCount := k + 1, elapsed := k * poll_interval }, c1)
      | .ok none => waitAux os timeout poll_interval fuel c1 (k + 1)
      | .ok (some t) =>
        if t.falsy then waitAux os timeout poll_interval fuel c1 (k + 1)
        else
          match checkTopologyReady t with
          | .error e =>
            ({ outcome := .error e, pollCount := k + 1, elapsed := k * poll_interval }, c1)
          | .ok true =>
            ({ outcome := .ok true, pollCount := k + 1, elapsed := k * poll_interval }, c1)
          | .ok false => waitAux os timeout poll_interval fuel c1 (k + 1)
    else ({ outcome := .ok false, pollCount := k, elapsed := k * poll_interval }, c)

/-- `ODLController.wait_for_topology_discovery`, with the `k`-th
`get_topology` call's HTTP outcome given by `os k`.  `timeout + 1` units of
fuel reach the guard-false exit whenever `0 < poll_interval`. -/
def wait_for_topology_discovery (self : ODLController) (os : Nat → HttpOutcome)
    (timeout poll_interval : Nat) : WaitResult × ODLController :=
  waitAux os timeout poll_interval (timeout + 1) self 0

/-- `match_ip.replace('.', '-')`: every `'.'` becomes `'-'` (single-character
pattern, so per-character substitution). -/
def pyReplaceDotDash (s : String) : String :=
  String.mk (s.data.map fun c => if c == '.' then '-' else c)

/-- `create_example_flow`: the flow-rule dictionary, built verbatim. -/
def create_example_flow (match_ip : String) (output_port : Nat) : Json :=
  .obj [("flow", .arr [.obj [
    ("id", .str ("flow-to-" ++ pyReplaceDotDash match_ip)),
    ("priority", .num 100),
    ("table_id", .num 0),
    ("match", .obj [
      ("ethernet-match", .obj [("ethernet-type", .obj [("type", .num 2048)])]),
      ("ipv4-destination", .str (match_ip ++ "/32"))]),
    ("instructions", .obj [("instruction", .arr [.obj [
      ("order", .num 0),
      ("apply-actions", .obj [("action", .arr [.obj [
        ("order", .num 0),
        ("output-action", .obj [
          ("output-node-connector", .str (toString output_port))])]])])]])])]])]

/-- The flow identifier `create_example_flow` derives for a destination
address: the `f"flow-to-{match_ip.replace('.', '-')}"` expression. -/
def flowIdOf (match_ip : String) : String :=
  "flow-to-" ++ pyReplaceDotDash match_ip

/-- The `id` field of the first entry of the `flow` array of a flow-rule
dictionary. -/
def firstFlowId (j : Json) : Option String :=
  match j.lookup "flow" with
  | some (.arr (e :: _)) =>
    match e.lookup "id" with
    | some (.str s) => some s
    | _ => none
  | _ => none

/-- Modelled from the spec: the OpenDaylight config datastore is external
to this repository; an HTTP PUT at a RESTCONF resource URL "performs an
idempotent replace write (create-or-update semantics)", i.e. it stores the
request body at that URL, overwriting whatever was there. -/
def serverPut (store : String → Option Json) (url : String) (body : Json) :
    String → Option Json :=
  fun u => if u == url then some body else store u

/-- The read operations' observable result: the parsed body on a 2xx JSON
response, `None` (absence) on every failure. -/
def readResult : HttpOutcome → Option Json
  | .okJson j => some j
  | _ => none

/-- The write operations' observable result: `True` on any 2xx response,
`False` (absence) on every failure. -/
def writeResult : HttpOutcome → Bool
  | .okJson _ => true
  | .okBadBody => true
  | _ => false

/-- A topology entry with both collections present and non-empty: the
waiter's success condition on one entry. -/
def entryNonEmptyNodeLink (e : Json) : Bool :=
  match e.lookup "node", e.lookup "link" with
  | some (.arr ns), some (.arr ls) => !ns.isEmpty && !ls.isEmpty
  | _, _ => false

/-- A topology entry the waiter's scan inspects without raising: an object
whose `node` and `link` values, when both keys are present, are lists (per
the data model, an entry carries a node list and a link list). -/
def entryOk (e : Json) : Bool :=
  match e with
  | .obj _ =>
    match e.lookup "node", e.lookup "link" with
    | some nv, some lv => nv.isArr && lv.isArr
    | _, _ => true
  | _ => false

/-- A topology entry with both lists present and at least one of them
empty. -/
def entryEmptyNodeOrLink (e : Json) : Bool :=
  match e.lookup "node", e.lookup "link" with
  | some (.arr ns), some (.arr ls) => ns.isEmpty || ls.isEmpty
  | _, _ => false

/-- An object entry missing the `node` key or the `link` key. -/
def entryMissingNodeOrLink (e : Json) : Bool :=
  match e with
  | .obj kvs => (lookupKey kvs "node").isNone || (lookupKey kvs "link").isNone
  | _ => false

/-- A topology response the waiter inspects without raising: an object
which either lacks `network-topology`, or maps it to an object that either
lacks `topology` or maps it to a list of inspectable entries. -/
def respOk (r : Json) : Bool :=
  match r with
  | .obj kvs =>
    match lookupKey kvs "network-topology" with
    | none => true
    | some (.obj ntkvs) =>
      match lookupKey ntkvs "topology" with
      | none => true
      | some (.arr es) => es.all entryOk
      | some _ => false
    | some _ => false
  | _ => false

/-- A topology response containing at least one entry with non-empty node
and link lists: the spec's readiness condition. -/
def hasReadyEntry (r : Json) : Bool :=
  match r with
  | .obj kvs =>
    match lookupKey kvs "network-topology" with
    | some (.obj ntkvs) =>
      match lookupKey ntkvs "topology" with
      | some (.arr es) => es.any entryNonEmptyNodeLink
      | _ => false
    | _ => false
  | _ => false

/-- A fully-shaped topology response in which every entry has both lists
present and at least one of them empty. -/
def allEntriesEmpty (r : Json) : Bool :=
  match r with
  | .obj kvs =>
    match lookupKey kvs "network-topology" with
    | some (.obj ntkvs) =>
      match lookupKey ntkvs "topology" with
      | some (.arr es) => es.all entryEmptyNodeOrLink
      | _ => false
    | _ => false
  | _ => false

/-- A response that parses but lacks the expected nested keys: no
`network-topology` key, or no `topology` key under it, or every entry an
object missing `node` or `link`. -/
def lacksExpectedKeys (r : Json) : Bool :=
  match r with
  | .obj kvs =>
    match lookupKey kvs "network-topology" with
    | none => true
    | some (.obj ntkvs) =>
      match lookupKey ntkvs "topology" with
      | none => true
      | some (.arr es) => es.all entryMissingNodeOrLink
      | some _ => false
    | some _ => false
  | _ => false

/-- An HTTP outcome on which one waiter iteration neither succeeds nor
raises, described at the interface: absence (any failure), a falsy body, or
an inspectable body with no ready entry. -/
def pollNotReady (o : HttpOutcome) : Prop :=
  match o with
  | .okJson r => r.falsy = true ∨ (respOk r = true ∧ hasReadyEntry r = false)
  | _ => True

/-- An HTTP outcome on which one waiter iteration recurses: the retrieved
value is absent, falsy, or inspected and found not ready. -/
def pollGoesOn (o : HttpOutcome) : Prop :=
  readResult o = none ∨
    ∃ r, readResult o = some r ∧ (r.falsy = true ∨ checkTopologyReady r = .ok false)

/-- Decimal digit characters split at dots: the groups of a dotted string
(splitting `"10.0.0.2"` yields the four octet character groups). -/
def splitDots : List Char → List (List Char)
  | [] => [[]]
  | c :: cs =>
    match splitDots cs with
    | [] => []
    | g :: gs => if c == '.' then [] :: g :: gs else (c :: g) :: gs

/-- Numeric value of a decimal digit string. -/
def digitsVal (g : List Char) : Nat :=
  g.foldl (fun a c => 10 * a + (c.toNat - '0'.toNat)) 0

/-- One octet of a dotted-decimal IPv4 literal: a non-empty digit group
with value at most 255. -/
def isOctet (g : List Char) : Bool :=
  !g.isEmpty && g.all Char.isDigit && digitsVal g ≤ 255

/-- A dotted-decimal IPv4 literal: four octets separated by dots. -/
def isIPv4Lit (s : String) : Bool :=
  let gs := splitDots s.data
  gs.length == 4 && gs.all isOctet

/-- Inverse substitution for `pyReplaceDotDash`: every `'-'` back to `'.'`. -/
def dashToDot (s : String) : String :=
  String.mk (s.data.map fun c => if c == '-' then '.' else c)

/-- An HTTP outcome the waiter's `if not topology:` branch absorbs: the
retrieved value is falsy (e.g. an empty object) or absent (`None` from any
transport failure). -/
def absorbedPoll (o : HttpOutcome) : Prop :=
  (∃ r, o = .okJson r ∧ r.falsy = true) ∨ readResult o = none

/-- The controller instance `main` constructs (all defaults). -/
def exampleController : ODLController :=
  ODLController.init "opendaylight" 8181 "admin" "admin"

/-- A topology response with one entry holding one node and one link. -/
def readyRespEx : Json :=
  .obj [("network-topology", .obj [("topology", .arr [
    .obj [("node", .arr [.str "openflow:1"]), ("link", .arr [.str "link:1"])]])])]

/-- A fully-shaped topology response whose single topology list is empty. -/
def emptyTopoRespEx : Json :=
  .obj [("network-topology", .obj [("topology", .arr [])])]

/-- A response that parses but lacks the `topology` key under
`network-topology`. -/
def lacksRespEx : Json :=
  .obj [("network-topology", .obj [("t", .null)])]

end SDN

namespace SDN

/-! ### Helper lemmas -/

theorem get_topology_snd (c : ODLController) (o : HttpOutcome) :
    (get_topology c o).2 = (.ok (readResult o), c) := by
  cases o <;> rfl

theorem okBind {α β : Type} (a : α) (f : α → Except PyErr β) :
    (Except.ok a >>= f : Except PyErr β) = f a := rfl

theorem errBind {α β : Type} (e : PyErr) (f : α → Except PyErr β) :
    ((Except.error e : Except PyErr α) >>= f) = Except.error e := rfl

theorem pureOk {α : Type} (a : α) : (pure a : Except PyErr α) = Except.ok a := rfl

theorem scanEntries_eq_any (es : List Json) (h : es.all entryOk = true) :
    scanEntries es = .ok (es.any entryNonEmptyNodeLink) := by
  induction es with
  | nil => rfl
  | cons e es ih =>
    rw [List.all_cons, Bool.and_eq_true] at h
    obtain ⟨he, hes⟩ := h
    cases e with
    | obj kvs =>
      cases hn : lookupKey kvs "node" with
      | none =>
        simp [scanEntries, pyIn, hn, okBind, entryNonEmptyNodeLink, Json.lookup, ih hes]
      | some nv =>
        cases hl : lookupKey kvs "link" with
        | none =>
          simp [scanEntries, pyIn, hn, hl, okBind, entryNonEmptyNodeLink, Json.lookup, ih hes]
        | some lv =>
          have harr : nv.isArr = true ∧ lv.isArr = true := by
            have := he
            simp only [entryOk, Json.lookup, hn, hl, Bool.and_eq_true] at this
            exact this
          obtain ⟨hnv, hlv⟩ := harr
          cases nv with
          | arr ns =>
            cases lv with
            | arr ls =>
              cases ns with
              | nil =>
                simp [scanEntries, pyIn, pyGetItem, pyLen, hn, hl, okBind,
                  entryNonEmptyNodeLink, Json.lookup, ih hes]
              | cons n ns' =>
                cases ls with
                | nil =>
                  simp [scanEntries, pyIn, pyGetItem, pyLen, hn, hl, okBind,
                    entryNonEmptyNodeLink, Json.lookup, ih hes]
                | cons l ls' =>
                  simp [scanEntries, pyIn, pyGetItem, pyLen, hn, hl, okBind, pureOk,
                    entryNonEmptyNodeLink, Json.lookup]
            | _ => simp [Json.isArr] at hlv
          | _ => simp [Json.isArr] at hnv
    | _ => simp [entryOk] at he

theorem checkTopologyReady_of_respOk (r : Json) (h : respOk r = true) :
    checkTopologyReady r = .ok (hasReadyEntry r) := by
  cases r with
  | obj kvs =>
    cases hnt : lookupKey kvs "network-topology" with
    | none =>
      simp [checkTopologyReady, pyIn, hnt, okBind, pureOk, hasReadyEntry]
    | some nt =>
      cases nt with
      | obj ntkvs =>
        cases htp : lookupKey ntkvs "topology" with
        | none =>
          simp [checkTopologyReady, pyIn, pyGetItem, hnt, htp, okBind, pureOk, hasReadyEntry]
        | some entries =>
          cases entries with
          | arr es =>
            have hall : es.all entryOk = true := by
              have := h
              simp only [respOk, hnt, htp] at this
              exact this
            simp [checkTopologyReady, pyIn, pyGetItem, pyIter, hnt, htp, okBind, pureOk,
              hasReadyEntry, scanEntries_eq_any es hall]
          | _ => simp [respOk, hnt, htp] at h
      | _ => simp [respOk, hnt] at h
  | _ => simp [respOk] at h

theorem falsy_false_of_hasReady (r : Json) (h : hasReadyEntry r = true) :
    r.falsy = false := by
  cases r with
  | obj kvs =>
    cases kvs with
    | nil => simp [hasReadyEntry, lookupKey] at h
    | cons kv rest => rfl
  | _ => simp [hasReadyEntry] at h

theorem entryEmpty_entryOk (e : Json) (h : entryEmptyNodeOrLink e = true) :
    entryOk e = true ∧ entryNonEmptyNodeLink e = false := by
  cases e with
  | obj kvs =>
    cases hn : lookupKey kvs "node" with
    | none => simp [entryEmptyNodeOrLink, Json.lookup, hn] at h
    | some nv =>
      cases hl : lookupKey kvs "link" with
      | none => simp [entryEmptyNodeOrLink, Json.lookup, hn, hl] at h
      | some lv =>
        cases nv with
        | arr ns =>
          cases lv with
          | arr ls =>
            simp only [entryEmptyNodeOrLink, Json.lookup, hn, hl] at h
            constructor
            · simp [entryOk, Json.lookup, hn, hl, Json.isArr]
            · simp only [entryNonEmptyNodeLink, Json.lookup, hn, hl]
              rcases Bool.or_eq_true_iff.mp h with h1 | h1 <;> simp [h1]
          | _ => simp [entryEmptyNodeOrLink, Json.lookup, hn, hl] at h
        | _ => cases lv <;> simp [entryEmptyNodeOrLink, Json.lookup, hn, hl] at h
  | _ => simp [entryEmptyNodeOrLink, Json.lookup] at h

theorem allEntriesEmpty_status (r : Json) (h : allEntriesEmpty r = true) :
    respOk r = true ∧ hasReadyEntry r = false ∧ r.falsy = false := by
  cases r with
  | obj kvs =>
    cases hnt : lookupKey kvs "network-topology" with
    | none => simp [allEntriesEmpty, hnt] at h
    | some nt =>
      cases nt with
      | obj ntkvs =>
        cases htp : lookupKey ntkvs "topology" with
        | none => simp [allEntriesEmpty, hnt, htp] at h
        | some entries =>
          cases entries with
          | arr es =>
            simp only [allEntriesEmpty, hnt, htp] at h
            rw [List.all_eq_true] at h
            refine ⟨?_, ?_, ?_⟩
            · simp only [respOk, hnt, htp, List.all_eq_true]
              intro e hmem
              exact (entryEmpty_entryOk e (h e hmem)).1
            · simp only [hasReadyEntry, hnt, htp]
              rw [Bool.eq_false_iff]
              intro hany
              rw [List.any_eq_true] at hany
              obtain ⟨e, hmem, hne⟩ := hany
              rw [(entryEmpty_entryOk e (h e hmem)).2] at hne
              exact Bool.false_ne_true hne
            · cases kvs with
              | nil => simp [lookupKey] at hnt
              | cons kv rest => rfl
          | _ => simp [allEntriesEmpty, hnt, htp] at h
      | _ => simp [allEntriesEmpty, hnt] at h
  | _ => simp [allEntriesEmpty] at h

theorem scanEntries_of_missing (es : List Json)
    (hall : es.all entryMissingNodeOrLink = true) : scanEntries es = .ok false := by
  induction es with
  | nil => rfl
  | cons e es ih =>
    rw [List.all_cons, Bool.and_eq_true] at hall
    obtain ⟨he, hes⟩ := hall
    cases e with
    | obj ekvs =>
      simp only [entryMissingNodeOrLink, Bool.or_eq_true_iff] at he
      rcases he with he | he
      · cases hn : lookupKey ekvs "node" with
        | none => simp [scanEntries, pyIn, hn, okBind, ih hes]
        | some v => rw [hn] at he; simp [Option.isNone] at he
      · cases hn : lookupKey ekvs "node" with
        | none => simp [scanEntries, pyIn, hn, okBind, ih hes]
        | some v =>
          cases hl : lookupKey ekvs "link" with
          | none => simp [scanEntries, pyIn, hn, hl, okBind, ih hes]
          | some w => rw [hl] at he; simp [Option.isNone] at he
    | _ => simp [entryMissingNodeOrLink] at he

theorem checkTopologyReady_of_lacks (r : Json) (h : lacksExpectedKeys r = true) :
    checkTopologyReady r = .ok false := by
  cases r with
  | obj kvs =>
    cases hnt : lookupKey kvs "network-topology" with
    | none => simp [checkTopologyReady, pyIn, hnt, okBind, pureOk]
    | some nt =>
      cases nt with
      | obj ntkvs =>
        cases htp : lookupKey ntkvs "topology" with
        | none => simp [checkTopologyReady, pyIn, pyGetItem, hnt, htp, okBind, pureOk]
        | some entries =>
          cases entries with
          | arr es =>
            have hall : es.all entryMissingNodeOrLink = true := by
              simpa only [lacksExpectedKeys, hnt, htp] using h
            have hscan : scanEntries es = .ok false := scanEntries_of_missing es hall
            simp [checkTopologyReady, pyIn, pyGetItem, pyIter, hnt, htp, okBind, pureOk, hscan]
          | _ => simp [lacksExpectedKeys, hnt, htp] at h
      | _ => simp [lacksExpectedKeys, hnt] at h
  | _ => simp [lacksExpectedKeys] at h

theorem absorbed_goesOn (o : HttpOutcome) (h : absorbedPoll o) : pollGoesOn o := by
  rcases h with ⟨r, rfl, hf⟩ | hn
  · exact Or.inr ⟨r, rfl, Or.inl hf⟩
  · exact Or.inl hn

theorem notReady_goesOn (o : HttpOutcome) (h : pollNotReady o) : pollGoesOn o := by
  cases o with
  | okJson r =>
    rcases h with hf | ⟨hok, hready⟩
    · exact Or.inr ⟨r, rfl, Or.inl hf⟩
    · refine Or.inr ⟨r, rfl, Or.inr ?_⟩
      rw [checkTopologyReady_of_respOk r hok, hready]
  | okBadBody => exact Or.inl rfl
  | httpFailure code => exact Or.inl rfl
  | transportError => exact Or.inl rfl

theorem waitAux_cont_step (os : Nat → HttpOutcome) (T i fuel : Nat) (c : ODLController)
    (k : Nat) (hk : k * i < T) (hp : pollGoesOn (os k)) :
    waitAux os T i (fuel + 1) c k = waitAux os T i fuel c (k + 1) := by
  rw [waitAux, if_pos hk]
  cases ho : os k with
  | okJson r =>
    rw [ho] at hp
    rcases hp with hnone | ⟨r', hr', hcase⟩
    · simp [readResult] at hnone
    · simp only [readResult, Option.some.injEq] at hr'
      subst hr'
      rcases hcase with hf | hcheck
      · simp [get_topology, requestsGetJson, hf]
      · cases hf : r.falsy with
        | true => simp [get_topology, requestsGetJson, hf]
        | false => simp [get_topology, requestsGetJson, hf, hcheck]
  | okBadBody => simp [get_topology, requestsGetJson]
  | httpFailure code => simp [get_topology, requestsGetJson]
  | transportError => simp [get_topology, requestsGetJson]

theorem waitAux_ctrl (os : Nat → HttpOutcome) (T i : Nat) :
    ∀ fuel c k, (waitAux os T i fuel c k).2 = c := by
  intro fuel
  induction fuel with
  | zero => intro c k; rfl
  | succ n ih =>
    intro c k
    rw [waitAux]
    by_cases hk : k * i < T
    · rw [if_pos hk]
      cases ho : os k with
      | okJson r =>
        cases hf : r.falsy with
        | true => simp [get_topology, requestsGetJson, hf, ih]
        | false =>
          cases hc : checkTopologyReady r with
          | error e => simp [get_topology, requestsGetJson, hf, hc]
          | ok b =>
            cases b with
            | true => simp [get_topology, requestsGetJson, hf, hc]
            | false => simp [get_topology, requestsGetJson, hf, hc, ih]
      | okBadBody => simp [get_topology, requestsGetJson, ih]
      | httpFailure code => simp [get_topology, requestsGetJson, ih]
      | transportError => simp [get_topology, requestsGetJson, ih]
    · rw [if_neg hk]

theorem waitAux_timeout_run (os : Nat → HttpOutcome) (T i : Nat)
    (hall : ∀ j, j * i < T → pollGoesOn (os j)) :
    ∀ fuel c k, T ≤ k * i + fuel * i → k * i < T + i →
      ∃ K, waitAux os T i fuel c k
          = ({ outcome := .ok false, pollCount := K, elapsed := K * i }, c)
        ∧ T ≤ K * i ∧ K * i < T + i := by
  intro fuel
  induction fuel with
  | zero =>
    intro c k hfuel hinv
    refine ⟨k, rfl, ?_, hinv⟩
    simpa using hfuel
  | succ n ih =>
    intro c k hfuel hinv
    by_cases hk : k * i < T
    · rw [waitAux_cont_step os T i n c k hk (hall k hk)]
      have h1 : (k + 1) * i = k * i + i := Nat.succ_mul k i
      have h2 : (n + 1) * i = n * i + i := Nat.succ_mul n i
      exact ih c (k + 1) (by omega) (by omega)
    · rw [waitAux, if_neg hk]
      exact ⟨k, rfl, by omega, hinv⟩

theorem waitAux_reach_ready (os : Nat → HttpOutcome) (T i : Nat) (k₀ : Nat) (r : Json)
    (hkT : k₀ * i < T)
    (hprev : ∀ j, j < k₀ → pollGoesOn (os j))
    (hk0 : os k₀ = .okJson r) (hok : respOk r = true) (hready : hasReadyEntry r = true) :
    ∀ fuel k c, k ≤ k₀ → k₀ < k + fuel →
      waitAux os T i fuel c k
        = ({ outcome := .ok true, pollCount := k₀ + 1, elapsed := k₀ * i }, c) := by
  intro fuel
  induction fuel with
  | zero => intro k c hk hlt; omega
  | succ n ih =>
    intro k c hk hlt
    by_cases hkk : k = k₀
    · subst hkk
      rw [waitAux, if_pos hkT, hk0]
      have hf := falsy_false_of_hasReady r hready
      have hc := checkTopologyReady_of_respOk r hok
      rw [hready] at hc
      simp [get_topology, requestsGetJson, hf, hc]
    · have hklt : k < k₀ := lt_of_le_of_ne hk hkk
      have hkT' : k * i < T :=
        lt_of_le_of_lt (Nat.mul_le_mul_right i (le_of_lt hklt)) hkT
      rw [waitAux_cont_step os T i n c k hkT' (hprev k hklt)]
      exact ih (k + 1) c (by omega) (by omega)

theorem waitAux_congr (os os' : Nat → HttpOutcome) (T i : Nat)
    (h : ∀ j, os j = os' j ∨ (absorbedPoll (os j) ∧ absorbedPoll (os' j))) :
    ∀ fuel c k, waitAux os T i fuel c k = waitAux os' T i fuel c k := by
  intro fuel
  induction fuel with
  | zero => intro c k; rfl
  | succ n ih =>
    intro c k
    by_cases hk : k * i < T
    · rcases h k with heq | ⟨ha, ha'⟩
      · rw [waitAux, waitAux, if_pos hk, if_pos hk, ← heq]
        cases ho : os k with
        | okJson r =>
          cases hf : r.falsy with
          | true => simp [get_topology, requestsGetJson, hf, ih]
          | false =>
            cases hc : checkTopologyReady r with
            | error e => simp [get_topology, requestsGetJson, hf, hc]
            | ok b => cases b <;> simp [get_topology, requestsGetJson, hf, hc, ih]
        | okBadBody => simp [get_topology, requestsGetJson, ih]
        | httpFailure code => simp [get_topology, requestsGetJson, ih]
        | transportError => simp [get_topology, requestsGetJson, ih]
      · rw [waitAux_cont_step os T i n c k hk (absorbed_goesOn _ ha),
            waitAux_cont_step os' T i n c k hk (absorbed_goesOn _ ha')]
        exact ih c (k + 1)
    · rw [waitAux, waitAux, if_neg hk, if_neg hk]

theorem serverPut_idem (store : String → Option Json) (u : String) (b : Json) :
    serverPut (serverPut store u b) u b = serverPut store u b := by
  funext x
  unfold serverPut
  by_cases h : (x == u) = true <;> simp [h]

theorem stringDataInj (a b : String) (h : a.data = b.data) : a = b := by
  cases a with
  | mk la =>
    cases b with
    | mk lb => exact congrArg String.mk h

theorem mapDotDash_cancel (l : List Char) (h : l.all (fun c => !(c == '-')) = true) :
    ((l.map fun c => if c == '.' then '-' else c).map
      fun c => if c == '-' then '.' else c) = l := by
  rw [List.map_map]
  have hid : ∀ c ∈ l,
      ((fun c => if c == '-' then '.' else c) ∘ fun c => if c == '.' then '-' else c) c
        = id c := by
    intro c hc
    have hcd : (!(c == '-')) = true := (List.all_eq_true.mp h) c hc
    simp only [Bool.not_eq_true', beq_eq_false_iff_ne] at hcd
    by_cases hdot : c = '.'
    · subst hdot; simp
    · simp [Function.comp, hdot, hcd]
  rw [List.map_congr_left hid, List.map_id]

theorem dashToDot_replace (s : String) (h : s.data.all (fun c => !(c == '-')) = true) :
    dashToDot (pyReplaceDotDash s) = s := by
  cases s with
  | mk l => exact congrArg String.mk (mapDotDash_cancel l h)

theorem splitDots_ne_nil (l : List Char) : splitDots l ≠ [] := by
  induction l with
  | nil => simp [splitDots]
  | cons c cs ih =>
    intro h
    rw [splitDots] at h
    cases hs : splitDots cs with
    | nil => exact ih hs
    | cons g gs => rw [hs] at h; by_cases hc : (c == '.') = true <;> simp [hc] at h

theorem splitDots_cons_eq (c : Char) (cs g : List Char) (gs : List (List Char))
    (hs : splitDots cs = g :: gs) :
    splitDots (c :: cs) = if (c == '.') = true then [] :: g :: gs else (c :: g) :: gs := by
  rw [splitDots, hs]

theorem digits_of_groups (l : List Char)
    (h : ((splitDots l).all fun g => g.all Char.isDigit) = true) :
    (l.all fun c => c.isDigit || c == '.') = true := by
  induction l with
  | nil => rfl
  | cons c cs ih =>
    cases hs : splitDots cs with
    | nil => exact absurd hs (splitDots_ne_nil cs)
    | cons g gs =>
      rw [splitDots_cons_eq c cs g gs hs] at h
      by_cases hc : (c == '.') = true
      · rw [if_pos hc] at h
        have h' : ((g :: gs).all fun g => g.all Char.isDigit) = true := by
          simpa using h
        rw [List.all_cons, Bool.and_eq_true]
        exact ⟨by simp [hc], ih (by rw [hs]; exact h')⟩
      · rw [if_neg hc] at h
        rw [List.all_cons, Bool.and_eq_true] at h
        obtain ⟨hg, hgs⟩ := h
        rw [List.all_cons, Bool.and_eq_true] at hg
        obtain ⟨hcd, hgd⟩ := hg
        rw [List.all_cons, Bool.and_eq_true]
        refine ⟨by simp [hcd], ih ?_⟩
        rw [hs, List.all_cons]
        simp [hgd, hgs]

theorem ipv4_no_dash (s : String) (h : isIPv4Lit s = true) :
    s.data.all (fun c => !(c == '-')) = true := by
  have hgroups : ((splitDots s.data).all isOctet) = true := by
    simp only [isIPv4Lit, Bool.and_eq_true] at h
    exact h.2
  have hdig : ((splitDots s.data).all fun g => g.all Char.isDigit) = true := by
    rw [List.all_eq_true] at hgroups ⊢
    intro g hg
    have hoct := hgroups g hg
    simp only [isOctet, Bool.and_eq_true] at hoct
    exact hoct.1.2
  have hall := digits_of_groups s.data hdig
  rw [List.all_eq_true] at hall ⊢
  intro c hc
  have hcq := hall c hc
  simp only [Bool.not_eq_true', beq_eq_false_iff_ne]
  intro heq
  subst heq
  rcases Bool.or_eq_true_iff.mp hcq with hd | hdot
  · exact absurd hd (by decide)
  · exact absurd hdot (by decide)

theorem flowIdOf_inj (s t : String) (hs : isIPv4Lit s = true) (ht : isIPv4Lit t = true)
    (hne : s ≠ t) : flowIdOf s ≠ flowIdOf t := by
  intro heq
  apply hne
  unfold flowIdOf at heq
  have hdata := congrArg String.data heq
  rw [String.data_append, String.data_append] at hdata
  have hR : pyReplaceDotDash s = pyReplaceDotDash t :=
    stringDataInj _ _ (List.append_cancel_left hdata)
  rw [← dashToDot_replace s (ipv4_no_dash s hs),
      ← dashToDot_replace t (ipv4_no_dash t ht), hR]

end SDN

namespace SDN

/-! ### Claim theorems -/

/-- Claim C1: for every topology response whose entries are topology entries
(objects whose `node` and `link` values, when both present, are lists — the
data model's entry shape) and of which at least one entry has non-empty node
and link lists, `wait_for_topology_discovery` returns true on the first poll
that observes such an entry — after `k₀ + 1` calls at elapsed time
`k₀ * poll_interval` — regardless of the contents of every other entry; no
cross-entry aggregation is performed. -/
theorem discovery_true_on_first_ready_poll
    (c : ODLController) (os : Nat → HttpOutcome) (T i k₀ : Nat) (r : Json)
    (hi : 0 < i) (hkT : k₀ * i < T)
    (hprev : ∀ j, j < k₀ → pollNotReady (os j))
    (hk0 : os k₀ = .okJson r) (hok : respOk r = true) (hready : hasReadyEntry r = true) :
    wait_for_topology_discovery c os T i
      = ({ outcome := .ok true, pollCount := k₀ + 1, elapsed := k₀ * i }, c) := by
  unfold wait_for_topology_discovery
  refine waitAux_reach_ready os T i k₀ r hkT
    (fun j hj => notReady_goesOn _ (hprev j hj)) hk0 hok hready (T + 1) 0 c
    (Nat.zero_le _) ?_
  have hle : k₀ ≤ k₀ * i := Nat.le_mul_of_pos_right k₀ hi
  omega

/-- Witness for C1: polling a ready single-entry response returns true on the
first poll with zero elapsed time. -/
theorem discovery_true_on_first_ready_poll_witness :
    wait_for_topology_discovery exampleController (fun _ => .okJson readyRespEx) 4 2
      = ({ outcome := .ok true, pollCount := 1, elapsed := 0 }, exampleController) :=
  discovery_true_on_first_ready_poll exampleController (fun _ => .okJson readyRespEx)
    4 2 0 readyRespEx (by decide) (by decide)
    (fun j hj => absurd hj (Nat.not_lt_zero j)) rfl (by decide) (by decide)

/-- Claim C2: every Controller Client operation converts any underlying
failure (connection/DNS failure, non-2xx HTTP status, malformed JSON body)
into an absence value — `None` for the reads `get_topology`, `get_nodes`,
`get_node_connectors`, `get_flows`, and `False` for the writes `install_flow`
and `delete_flow` — and never propagates a raised exception to the caller
(the result is always `.ok`). -/
theorem client_ops_absorb_failures (c : ODLController) (o : HttpOutcome)
    (nid fid : String) (fb : Json) :
    (get_topology c o).2.1 = .ok (readResult o)
      ∧ (get_nodes c o).2.1 = .ok (readResult o)
      ∧ (get_node_connectors c nid o).2.1 = .ok (readResult o)
      ∧ (get_flows c nid o).2.1 = .ok (readResult o)
      ∧ (install_flow c nid fid fb o).2.1 = .ok (writeResult o)
      ∧ (delete_flow c nid fid o).2.1 = .ok (writeResult o) := by
  cases o <;> exact ⟨rfl, rfl, rfl, rfl, rfl, rfl⟩

/-- Claim C3: when every poll made before the deadline yields a transport
failure or a fully-shaped response in which every entry has an empty node
list or an empty link list, `wait_for_topology_discovery` keeps polling until
the timeout elapses and returns false without throwing, and the elapsed time
at return satisfies `timeout ≤ elapsed < timeout + poll_interval`. -/
theorem discovery_timeout_returns_false
    (c : ODLController) (os : Nat → HttpOutcome) (T i : Nat) (hi : 0 < i)
    (hall : ∀ j, j * i < T →
      os j = .transportError ∨ ∃ r, os j = .okJson r ∧ allEntriesEmpty r = true) :
    ∃ K, wait_for_topology_discovery c os T i
        = ({ outcome := .ok false, pollCount := K, elapsed := K * i }, c)
      ∧ T ≤ K * i ∧ K * i < T + i := by
  unfold wait_for_topology_discovery
  have hgo : ∀ j, j * i < T → pollGoesOn (os j) := by
    intro j hj
    rcases hall j hj with ht | ⟨r, hr, hempty⟩
    · rw [ht]; exact Or.inl rfl
    · obtain ⟨hok, hready, hfalsy⟩ := allEntriesEmpty_status r hempty
      refine Or.inr ⟨r, by rw [hr]; rfl, Or.inr ?_⟩
      rw [checkTopologyReady_of_respOk r hok, hready]
  refine waitAux_timeout_run os T i hgo (T + 1) c 0 ?_ ?_
  · have hmul : T + 1 ≤ (T + 1) * i := Nat.le_mul_of_pos_right (T + 1) hi
    simp only [Nat.zero_mul, Nat.zero_add]
    omega
  · simp only [Nat.zero_mul]
    omega

/-- Witness for C3: with every poll a transport failure, `timeout = 4` and
`poll_interval = 2`, the waiter times out with false. -/
theorem discovery_timeout_returns_false_witness :
    ∃ K, wait_for_topology_discovery exampleController (fun _ => .transportError) 4 2
        = ({ outcome := .ok false, pollCount := K, elapsed := K * 2 }, exampleController)
      ∧ 4 ≤ K * 2 ∧ K * 2 < 4 + 2 :=
  discovery_timeout_returns_false exampleController (fun _ => .transportError) 4 2
    (by decide) (fun j hj => Or.inl rfl)

/-- Claim C4: with `timeout = 4`, `poll_interval = 2`, and `get_topology`
returning an empty-topology response on every call, the waiter calls
`get_topology` exactly 2 times and returns false at 4 seconds elapsed. -/
theorem mocked_waiter_two_polls :
    wait_for_topology_discovery exampleController (fun _ => .okJson emptyTopoRespEx) 4 2
      = ({ outcome := .ok false, pollCount := 2, elapsed := 4 }, exampleController) := rfl

/-- Claim C5: the flow-identifier derivation in `create_example_flow` is
deterministic, the built flow's `id` field is exactly the derived identifier,
`"10.0.0.2"` maps to `"flow-to-10-0-0-2"`, and the derivation is injective
over dotted-decimal IPv4 literals. -/
theorem flow_id_derivation :
    (∀ a b : String, a = b → flowIdOf a = flowIdOf b)
      ∧ (∀ (ip : String) (port : Nat),
          firstFlowId (create_example_flow ip port) = some (flowIdOf ip))
      ∧ flowIdOf "10.0.0.2" = "flow-to-10-0-0-2"
      ∧ (∀ s t : String, isIPv4Lit s = true → isIPv4Lit t = true → s ≠ t →
          flowIdOf s ≠ flowIdOf t) :=
  ⟨fun a b h => by rw [h], fun ip port => rfl, by decide, flowIdOf_inj⟩

/-- Witness for C5: the distinct addresses `10.0.0.2` and `10.0.0.3` derive
distinct flow identifiers. -/
theorem flow_id_derivation_witness :
    flowIdOf "10.0.0.2" ≠ flowIdOf "10.0.0.3" :=
  flow_id_derivation.2.2.2 "10.0.0.2" "10.0.0.3" (by decide) (by decide) (by decide)

/-- Claim C6: `install_flow` returns a boolean (never raises), targets a
resource URL determined by exactly `node_id` and `flow_id` (independent of
the body and of the HTTP outcome), sends the flow body, and — under the
spec-modelled RESTCONF PUT replace semantics — installing the same flow twice
leaves the controller's config state the same as installing it once. -/
theorem install_flow_put_semantics (c : ODLController) (nid fid : String) (fb : Json)
    (o : HttpOutcome) (store : String → Option Json) :
    (install_flow c nid fid fb o).2.1 = .ok (writeResult o)
      ∧ (install_flow c nid fid fb o).1.url = c.base_url ++ flowResourcePath nid fid
      ∧ (install_flow c nid fid fb o).1.body = some fb
      ∧ serverPut (serverPut store (c.base_url ++ flowResourcePath nid fid) fb)
          (c.base_url ++ flowResourcePath nid fid) fb
        = serverPut store (c.base_url ++ flowResourcePath nid fid) fb := by
  refine ⟨?_, ?_, ?_, serverPut_idem store _ fb⟩ <;> cases o <;> rfl

/-- Claim C7: a response that parses but lacks the expected nested keys (no
`network-topology` key, no `topology` key under it, or every entry an object
missing `node` or `link`) is treated as not yet ready: the inspection does
not raise and does not yield true, and the waiter sleeps and polls again. -/
theorem missing_keys_treated_not_ready (r : Json) (h : lacksExpectedKeys r = true) :
    checkTopologyReady r = .ok false
      ∧ ∀ (c : ODLController) (os : Nat → HttpOutcome) (T i fuel k : Nat),
          os k = .okJson r → k * i < T →
          waitAux os T i (fuel + 1) c k = waitAux os T i fuel c (k + 1) := by
  have hcheck := checkTopologyReady_of_lacks r h
  refine ⟨hcheck, ?_⟩
  intro c os T i fuel k hos hk
  exact waitAux_cont_step os T i fuel c k hk
    (Or.inr ⟨r, by rw [hos]; rfl, Or.inr hcheck⟩)

/-- Witness for C7: a response whose `network-topology` object lacks the
`topology` key is found not ready and the loop moves to the next poll. -/
theorem missing_keys_treated_not_ready_witness :
    checkTopologyReady lacksRespEx = .ok false
      ∧ waitAux (fun _ => .okJson lacksRespEx) 4 2 1 exampleController 0
          = waitAux (fun _ => .okJson lacksRespEx) 4 2 0 exampleController 1 :=
  ⟨(missing_keys_treated_not_ready lacksRespEx (by decide)).1,
    (missing_keys_treated_not_ready lacksRespEx (by decide)).2
      exampleController (fun _ => .okJson lacksRespEx) 4 2 0 0 rfl (by decide)⟩

/-- Claim C8: the endpoint configuration (`base_url`, `auth`, `headers`) is
immutable after construction: every Controller Client operation and the
waiter return the `ODLController` object unchanged. -/
theorem controller_config_immutable (c : ODLController) (o : HttpOutcome)
    (nid fid : String) (fb : Json) (os : Nat → HttpOutcome) (T i : Nat) :
    (get_topology c o).2.2 = c ∧ (get_nodes c o).2.2 = c
      ∧ (get_node_connectors c nid o).2.2 = c ∧ (get_flows c nid o).2.2 = c
      ∧ (install_flow c nid fid fb o).2.2 = c ∧ (delete_flow c nid fid o).2.2 = c
      ∧ (wait_for_topology_discovery c os T i).2 = c := by
  refine ⟨?_, ?_, ?_, ?_, ?_, ?_, waitAux_ctrl os T i (T + 1) c 0⟩ <;> cases o <;> rfl

/-- Claim C9: the waiter treats every falsy `get_topology` result identically
to a transport-failure `None`: replacing one by the other at any polls leaves
the waiter's behaviour unchanged, and on such a poll the loop never consults
the readiness inspection — it just continues polling. -/
theorem falsy_result_same_branch (c : ODLController) (os os' : Nat → HttpOutcome)
    (T i : Nat) :
    ((∀ j, os j = os' j ∨ (absorbedPoll (os j) ∧ absorbedPoll (os' j))) →
        wait_for_topology_discovery c os T i = wait_for_topology_discovery c os' T i)
      ∧ (∀ fuel k, absorbedPoll (os k) → k * i < T →
          waitAux os T i (fuel + 1) c k = waitAux os T i fuel c (k + 1)) := by
  constructor
  · intro h
    unfold wait_for_topology_discovery
    exact waitAux_congr os os' T i h (T + 1) c 0
  · intro fuel k ha hk
    exact waitAux_cont_step os T i fuel c k hk (absorbed_goesOn _ ha)

/-- Witness for C9: a stream of parsed-but-empty `{}` responses produces the
same waiter run as a stream of transport failures, and on an empty-object
poll the loop continues. -/
theorem falsy_result_same_branch_witness :
    wait_for_topology_discovery exampleController (fun _ => .okJson (.obj [])) 4 2
        = wait_for_topology_discovery exampleController (fun _ => .transportError) 4 2
      ∧ waitAux (fun _ => .okJson (.obj [])) 4 2 3 exampleController 0
          = waitAux (fun _ => .okJson (.obj [])) 4 2 2 exampleController 1 :=
  ⟨(falsy_result_same_branch exampleController (fun _ => .okJson (.obj []))
      (fun _ => .transportError) 4 2).1
      (fun j => Or.inr ⟨Or.inl ⟨.obj [], rfl, rfl⟩, Or.inr rfl⟩),
    (falsy_result_same_branch exampleController (fun _ => .okJson (.obj []))
      (fun _ => .transportError) 4 2).2 2 0 (Or.inl ⟨.obj [], rfl, rfl⟩) (by decide)⟩

/-- Claim C10: `create_shortest_path_flows` and `create_load_balanced_flows`
return true for every input, issue no controller request and modify no state,
so a true result carries no information about any flow having been
installed. -/
theorem placeholder_flows_unconditional_true (c : ODLController)
    (sh dh pp sip dip : String) (pc : Nat) :
    create_shortest_path_flows c sh dh pp = (true, [], c)
      ∧ create_load_balanced_flows c sip dip pc = (true, [], c) :=
  ⟨rfl, rfl⟩

end SDN
